import Mathlib

/-!
Verification of the OnlyWorlds tool-template launcher (`start.py`).

The script is embedded shallowly as a trace semantics: each observable side
effect of the Python program (printing, changing directory, starting the
background thread, sleeping, asking the OS to open a browser, attempting to
bind a TCP socket, running the serve loop, handling a request, closing the
socket) is an `Event`.  The environment's choices — which exception, if any,
each bind-and-serve attempt raises, how many requests a serve loop handles
before it is stopped, and whether the OS manages to open a browser — are
collected in `Env`.  Only terminating executions are modelled: a
`serve_forever` loop terminates only when an exception is delivered to it, so
each attempt's outcome records the exception that eventually stops it.

The browser thread is a daemon thread (`browser_thread.daemon = True`), and
Python kills daemon threads when the process exits: whether the thread gets to
run its body before the process dies (it does not when the process exits
within the one-second delay, e.g. when both bind attempts fail immediately) is
a further choice of the environment, `Env.daemonRan`.
-/

namespace StartPy

/-- A Python exception value, as far as the launcher can distinguish them. -/
inductive PyExc where
  | keyboardInterrupt
  | osError (code : String)
  | other (name : String)
deriving DecidableEq, Repr

/-- One observable side effect of the launcher process. -/
inductive Event where
  | print (s : String)
  | chdir (path : String)
  | threadStart
  | sleep (seconds : Nat)
  | browserOpen (url : String)
  | bindAttempt (host : String) (p : Nat)
  | serveStart
  | handleRequest
  | socketClose
deriving DecidableEq, Repr

/-- Outcome of one bind-and-serve attempt, chosen by the environment: either
the socket constructor raises (`bindFail`), or the bind succeeds and the serve
loop handles `requests` requests before an exception `e` stops it
(`serveRaise`). -/
inductive AttemptOutcome where
  | bindFail (e : PyExc)
  | serveRaise (requests : Nat) (e : PyExc)
deriving DecidableEq, Repr

/-- The environment's choices for one terminating execution of the script.
`daemonRan` records whether the daemon browser thread got to run its body
before the process exited; the thread is killed mid-sleep when the process
exits within the one-second delay. -/
structure Env where
  first : AttemptOutcome
  second : AttemptOutcome
  browserOk : Bool
  daemonRan : Bool
deriving DecidableEq, Repr

/-- `port = 8080`, the only port the script ever mentions. -/
def port : Nat := 8080

/-- The events of the startup banner, `print` by `print` as in `main`. -/
def bannerTrace : List Event :=
  [ Event.print ""
  , Event.print (String.mk (List.replicate 40 '='))
  , Event.print "     OnlyWorlds Tool Template"
  , Event.print (String.mk (List.replicate 40 '='))
  , Event.print ""
  , Event.print ("Starting server at http://localhost:" ++ toString port)
  , Event.print "Press Ctrl+C to stop"
  , Event.print "" ]

/-- `webbrowser.open(url)`: emits the browser-open request and reports whether
a browser was actually opened (`False` when e.g. no GUI is available; the
Python call returns a `bool` rather than raising). -/
def webbrowser_open (url : String) (browserOk : Bool) : Event × Bool :=
  (Event.browserOpen url, browserOk)

/-- The body of the nested `open_browser` function run on the daemon thread:
`time.sleep(1)` then `webbrowser.open(f'http://localhost:{port}')`, whose
boolean result is discarded. -/
def open_browser (browserOk : Bool) : List Event :=
  [Event.sleep 1, (webbrowser_open ("http://localhost:" ++ toString port) browserOk).1]

/-- `with socketserver.TCPServer(("", port), SimpleHTTPRequestHandler) as httpd:
httpd.serve_forever()` — the first attempt.  On a bind failure the context
manager is never entered; otherwise the `with` block closes the socket when the
exception stops the serve loop.  Either way the attempt ends in the exception
returned in the second component. -/
def tcpServerAttempt : AttemptOutcome → List Event × PyExc
  | AttemptOutcome.bindFail e => ([Event.bindAttempt "" port], e)
  | AttemptOutcome.serveRaise n e =>
      (Event.bindAttempt "" port :: Event.serveStart ::
        (List.replicate n Event.handleRequest ++ [Event.socketClose]), e)

/-- `httpd = HTTPServer(("", port), SimpleHTTPRequestHandler);
httpd.serve_forever()` — the fallback in the `except:` branch.  There is no
`with` block, so no socket-close event is emitted before the exception
propagates. -/
def httpServerAttempt : AttemptOutcome → List Event × PyExc
  | AttemptOutcome.bindFail e => ([Event.bindAttempt "" port], e)
  | AttemptOutcome.serveRaise n e =>
      (Event.bindAttempt "" port :: Event.serveStart ::
        List.replicate n Event.handleRequest, e)

/-- `main()`: prints the banner, changes to the script's directory
(`scriptDir` stands for `os.path.dirname(os.path.abspath(__file__))`), starts
the daemon browser thread, then runs the first attempt inside `try:`.  The bare
`except:` catches whatever exception (of any class) the first attempt ends in
and runs the fallback attempt; the fallback's exception is uncaught, so the
function's result is `Except.error` of it. -/
def main (scriptDir : String) (env : Env) : List Event × Except PyExc Unit :=
  (bannerTrace ++ Event.chdir scriptDir :: Event.threadStart ::
      ((tcpServerAttempt env.first).1 ++ (httpServerAttempt env.second).1),
   Except.error (httpServerAttempt env.second).2)

/-- All events of the whole process: the main thread's trace together with the
daemon browser thread's trace.  Because the thread is a daemon, Python kills
it at process exit; its events occur only when it got to run before the exit
(`env.daemonRan`).  For counting events, any interleaving of the two threads
has exactly the events of this concatenation. -/
def systemTrace (scriptDir : String) (env : Env) : List Event :=
  (main scriptDir env).1 ++
    (if env.daemonRan then open_browser env.browserOk else [])

/-- The script entry point `if __name__ == "__main__": main()`: the
command-line arguments `sys.argv` are never read, so the whole-process
behaviour is a function of the environment only. -/
def script (argv : List String) (scriptDir : String) (env : Env) :
    List Event × Except PyExc Unit :=
  let _ := argv
  (systemTrace scriptDir env, (main scriptDir env).2)

/-- Recognises a bind attempt. -/
def isBind : Event → Bool
  | Event.bindAttempt _ _ => true
  | _ => false

/-- Recognises the chdir event. -/
def isChdir : Event → Bool
  | Event.chdir _ => true
  | _ => false

/-- Recognises a browser-open request. -/
def isBrowserOpen : Event → Bool
  | Event.browserOpen _ => true
  | _ => false

/-- Recognises a handled HTTP request. -/
def isRequest : Event → Bool
  | Event.handleRequest => true
  | _ => false

theorem url_eval : "http://localhost:" ++ toString port = "http://localhost:8080" := rfl

theorem filter_replicate_nil (p : Event → Bool) (a : Event) (h : p a = false)
    (n : Nat) : (List.replicate n a).filter p = [] := by
  induction n with
  | zero => rfl
  | succ n ih => simp [List.replicate_succ, List.filter_cons, h, ih]

theorem filter_bannerTrace_nil (p : Event → Bool)
    (h : ∀ s, p (Event.print s) = false) : bannerTrace.filter p = [] := by
  simp [bannerTrace, List.filter_cons, h]

/-- C4: the background browser task first waits one second and then asks the
OS default handler to open exactly `http://localhost:8080`, in that order. -/
theorem C4_browser_waits_then_opens_url (browserOk : Bool) :
    open_browser browserOk =
      [Event.sleep 1, Event.browserOpen "http://localhost:8080"] := rfl

/-- C10: the program consumes no command-line arguments: two invocations that
differ only in their argument lists have identical whole-process behaviour
(banner, port bound, URL opened, serving loop, result). -/
theorem C10_cli_args_ignored (a1 a2 : List String) (d : String) (env : Env) :
    script a1 d env = script a2 d env := rfl

/-- C9: a failure of the browser-open action (`browserOk = false`) is never
surfaced to the launcher: the whole-process event trace and the launcher's
result are the same as when the browser opens successfully. -/
theorem C9_browser_failure_silent (d : String) (f s : AttemptOutcome)
    (b dr : Bool) :
    systemTrace d (Env.mk f s b dr) = systemTrace d (Env.mk f s true dr) ∧
    (main d (Env.mk f s b dr)).2 = (main d (Env.mk f s true dr)).2 := ⟨rfl, rfl⟩

/-- C6: the launcher first changes the working directory to the script's own
directory, then starts the background browser thread, and only then makes the
blocking bind-and-serve call: after the banner the trace is
`chdir`, `threadStart`, and then the server events, which begin with the bind
attempt. -/
theorem C6_chdir_then_spawn_then_serve (d : String) (env : Env) :
    ∃ serverEvents : List Event,
      (main d env).1 =
        bannerTrace ++ Event.chdir d :: Event.threadStart :: serverEvents ∧
      ∃ rest, serverEvents = Event.bindAttempt "" 8080 :: rest := by
  refine ⟨(tcpServerAttempt env.first).1 ++ (httpServerAttempt env.second).1, rfl, ?_⟩
  cases env.first with
  | bindFail e => exact ⟨_, rfl⟩
  | serveRaise n e => exact ⟨_, rfl⟩

/-- C3: every terminating execution has its first bind-and-serve attempt end
in some exception (of any class, `KeyboardInterrupt` included), after which the
program makes exactly one fallback attempt to bind a second server on the same
port 8080: the trace holds exactly two bind attempts, both on `("", 8080)`,
and the exception that stops the second attempt propagates uncaught as the
result of `main`. -/
theorem C3_single_fallback_then_propagate (d : String) (env : Env) :
    ((main d env).1.filter isBind) =
      [Event.bindAttempt "" 8080, Event.bindAttempt "" 8080] ∧
    (main d env).2 = Except.error (httpServerAttempt env.second).2 := by
  constructor
  · cases env with
    | mk f s b dr =>
      cases f <;> cases s <;>
        simp [main, tcpServerAttempt, httpServerAttempt, port, List.filter_append,
          List.filter_cons, isBind,
          filter_bannerTrace_nil isBind (fun _ => rfl),
          filter_replicate_nil isBind Event.handleRequest rfl]
  · rfl

/-- C8: the process working directory is changed exactly once in the whole
process trace, to the script's own directory, and no later event of either
thread changes it again. -/
theorem C8_chdir_exactly_once (d : String) (env : Env) :
    (systemTrace d env).filter isChdir = [Event.chdir d] := by
  cases env with
  | mk f s b dr =>
    cases f <;> cases s <;> cases dr <;>
      simp [systemTrace, main, tcpServerAttempt, httpServerAttempt, open_browser,
        webbrowser_open, port, List.filter_append, List.filter_cons, isChdir,
        filter_bannerTrace_nil isChdir (fun _ => rfl),
        filter_replicate_nil isChdir Event.handleRequest rfl]

/-- C5 counterexample: a launch on a busy port exits within milliseconds, the
daemon browser thread is killed during its one-second sleep, and the
browser-open action is attempted zero times — refuting "attempted exactly
once for every launch". -/
theorem C5_zero_opens_counterexample :
    ((systemTrace "/repo"
        (Env.mk (AttemptOutcome.bindFail (PyExc.osError "EADDRINUSE"))
          (AttemptOutcome.bindFail (PyExc.osError "EADDRINUSE")) true false)).filter
          isBrowserOpen) = [] := by rfl

/-- C5 amended: for every launch the browser-open action is attempted at most
once, whatever the request volume of either serve loop: exactly once when the
daemon browser thread runs before the process exits, and zero times when the
process exits within the one-second delay (the daemon thread is killed at
exit); never more than once. -/
theorem C5_browser_open_at_most_once (d : String) (env : Env) :
    (systemTrace d env).filter isBrowserOpen =
      (if env.daemonRan then [Event.browserOpen "http://localhost:8080"]
       else []) ∧
    ((systemTrace d env).filter isBrowserOpen).length ≤ 1 := by
  have h : (systemTrace d env).filter isBrowserOpen =
      (if env.daemonRan then [Event.browserOpen "http://localhost:8080"]
       else []) := by
    cases env with
    | mk f s b dr =>
      cases f <;> cases s <;> cases dr <;>
        simp [systemTrace, main, tcpServerAttempt, httpServerAttempt, open_browser,
          webbrowser_open, url_eval, List.filter_append, List.filter_cons,
          isBrowserOpen,
          filter_bannerTrace_nil isBrowserOpen (fun _ => rfl),
          filter_replicate_nil isBrowserOpen Event.handleRequest rfl]
  refine ⟨h, ?_⟩
  rw [h]
  cases env.daemonRan <;> simp

/-- C7: every bind attempt the launcher ever makes is on host `""` (all
interfaces) and port exactly 8080, and the port is the fixed constant 8080. -/
theorem C7_bind_all_interfaces_port_8080 (d : String) (env : Env) :
    (systemTrace d env).filter isBind =
      [Event.bindAttempt "" 8080, Event.bindAttempt "" 8080] ∧ port = 8080 := by
  constructor
  · cases env with
    | mk f s b dr =>
      cases f <;> cases s <;> cases dr <;>
        simp [systemTrace, main, tcpServerAttempt, httpServerAttempt, open_browser,
          webbrowser_open, port, List.filter_append, List.filter_cons, isBind,
          filter_bannerTrace_nil isBind (fun _ => rfl),
          filter_replicate_nil isBind Event.handleRequest rfl]
  · rfl

/-- C1: refuted on the code.  When a `KeyboardInterrupt` stops the first serve
loop, the bare `except:` catches it and the launcher makes a second bind
attempt on port 8080 — the interrupt IS treated as a trigger for a further
server startup, contradicting the claim (and the script's own printed
`Press Ctrl+C to stop` banner). -/
theorem C1_interrupt_starts_second_server :
    ((main "/repo"
        (Env.mk (AttemptOutcome.serveRaise 0 PyExc.keyboardInterrupt)
          (AttemptOutcome.serveRaise 0 PyExc.keyboardInterrupt) true true)).1.filter
          isBind) =
      [Event.bindAttempt "" 8080, Event.bindAttempt "" 8080] := by rfl

/-- C2 counterexample: with port 8080 already in use (both bind attempts fail
with `EADDRINUSE`) the launcher does retry: the trace holds a second bind
attempt, refuting the claim's "no retry". -/
theorem C2_retry_counterexample :
    ((main "/repo"
        (Env.mk (AttemptOutcome.bindFail (PyExc.osError "EADDRINUSE"))
          (AttemptOutcome.bindFail (PyExc.osError "EADDRINUSE")) true false)).1.filter
          isBind) =
      [Event.bindAttempt "" 8080, Event.bindAttempt "" 8080] := by rfl

/-- C2 amended: when port 8080 is already in use, the first bind failure is
caught and the launcher makes exactly one fallback retry on the same port
8080 (never an alternate port); when that also fails, the error propagates
uncaught as the process result and no request is ever served. -/
theorem C2_bind_failure_retry_then_fatal (d : String) (env : Env)
    (e e2 : PyExc) (h1 : env.first = AttemptOutcome.bindFail e)
    (h2 : env.second = AttemptOutcome.bindFail e2) :
    ((main d env).1.filter isBind) =
      [Event.bindAttempt "" 8080, Event.bindAttempt "" 8080] ∧
    ((main d env).1.filter isRequest) = [] ∧
    (main d env).2 = Except.error e2 := by
  refine ⟨?_, ?_, ?_⟩
  · simp [main, h1, h2, tcpServerAttempt, httpServerAttempt, port,
      List.filter_append, List.filter_cons, isBind,
      filter_bannerTrace_nil isBind (fun _ => rfl)]
  · simp [main, h1, h2, tcpServerAttempt, httpServerAttempt, port,
      List.filter_append, List.filter_cons, isRequest,
      filter_bannerTrace_nil isRequest (fun _ => rfl)]
  · simp [main, h2, httpServerAttempt]

/-- Witness for C2's amended theorem at a concrete busy-port environment. -/
theorem C2_bind_failure_retry_then_fatal_witness :
    ((main "/repo"
        (Env.mk (AttemptOutcome.bindFail (PyExc.osError "EADDRINUSE"))
          (AttemptOutcome.bindFail (PyExc.osError "EADDRINUSE")) false false)).1.filter
          isBind) =
      [Event.bindAttempt "" 8080, Event.bindAttempt "" 8080] ∧
    ((main "/repo"
        (Env.mk (AttemptOutcome.bindFail (PyExc.osError "EADDRINUSE"))
          (AttemptOutcome.bindFail (PyExc.osError "EADDRINUSE")) false false)).1.filter
          isRequest) = [] ∧
    (main "/repo"
        (Env.mk (AttemptOutcome.bindFail (PyExc.osError "EADDRINUSE"))
          (AttemptOutcome.bindFail (PyExc.osError "EADDRINUSE")) false false)).2 =
      Except.error (PyExc.osError "EADDRINUSE") :=
  C2_bind_failure_retry_then_fatal "/repo"
    (Env.mk (AttemptOutcome.bindFail (PyExc.osError "EADDRINUSE"))
      (AttemptOutcome.bindFail (PyExc.osError "EADDRINUSE")) false false)
    (PyExc.osError "EADDRINUSE") (PyExc.osError "EADDRINUSE") rfl rfl

end StartPy
